import Mathlib

/-!
Verification of the ClickHouse jemalloc memory-accounting extension
(`include/jemalloc/internal/clickhouse.h`).

The header declares:
  * the per-thread record `struct je_clickhouse_tls_s` with two signed delta
    counters (`active_bytes_delta`, `dirty_bytes_delta`) and two mode flags
    (`use_thread_local_stats`, `do_not_increase_rss`);
  * two global atomic counters `je_clickhouse_resident_bytes` and
    `je_clickhouse_active_bytes` ("resident" means active + dirty);
  * the intended-usage code of the speculative reservation protocol
    (lines 112-128 of the header).

The page-state transition hook itself (the allocator code that fires on every
page state change) and the admission check live inside jemalloc's arena/extent
machinery and are not part of the header; they are modelled from the spec
where noted. We use mathematical integers for the signed 64-bit counters:
every statement proved here is an equation or inequality built from additions
and subtractions, which commutes with reduction modulo 2^64.
-/

namespace ClickhouseJemalloc

/-- Modelled from the spec: the four page-state transition kinds of the
transition-event taxonomy (retained→active, dirty→active, active→dirty,
dirty→retained); the spec states the table of four kinds is exhaustive. -/
inductive TransitionKind where
  | retainedToActive
  | dirtyToActive
  | activeToDirty
  | dirtyToRetained
deriving DecidableEq, Repr

/-- Modelled from the spec: a transient page-state transition notification
`{kind, size}` produced by the allocator's page-state machine. -/
structure TransitionEvent where
  kind : TransitionKind
  size : Nat
deriving DecidableEq, Repr

/-- Modelled from the spec: effect of one transition on the total of bytes in
active pages (the `active` column of the table in the spec; matches the
header's description of `active_bytes_delta` as "total size of active
pages"). -/
def activeEffect (e : TransitionEvent) : Int :=
  match e.kind with
  | .retainedToActive => (e.size : Int)
  | .dirtyToActive => (e.size : Int)
  | .activeToDirty => -(e.size : Int)
  | .dirtyToRetained => 0

/-- Modelled from the spec: effect of one transition on the total of bytes in
dirty regions (the header describes `dirty_bytes_delta` as "total size of
dirty regions"). -/
def dirtyEffect (e : TransitionEvent) : Int :=
  match e.kind with
  | .retainedToActive => 0
  | .dirtyToActive => -(e.size : Int)
  | .activeToDirty => (e.size : Int)
  | .dirtyToRetained => -(e.size : Int)

/-- Modelled from the spec: effect of one transition on resident bytes
(the `resident` column of the table; the header states "Resident" means
active+dirty). -/
def residentEffect (e : TransitionEvent) : Int :=
  match e.kind with
  | .retainedToActive => (e.size : Int)
  | .dirtyToActive => 0
  | .activeToDirty => 0
  | .dirtyToRetained => -(e.size : Int)

/-- The two global counters `je_clickhouse_resident_bytes` and
`je_clickhouse_active_bytes` (header lines 136-137), signed. -/
structure GlobalCounters where
  resident_bytes : Int
  active_bytes : Int
deriving DecidableEq, Repr

/-- `struct je_clickhouse_tls_s` (header lines 64-83): two signed thread-local
delta counters and the two mode flags. -/
structure ClickhouseTls where
  active_bytes_delta : Int
  dirty_bytes_delta : Int
  use_thread_local_stats : Bool
  do_not_increase_rss : Bool
deriving DecidableEq, Repr

/-- Combined accounting state: the global counters plus one thread's
`je_clickhouse_tls` record. -/
structure State where
  globals : GlobalCounters
  tls : ClickhouseTls
deriving DecidableEq, Repr

/-- Modelled from the spec: the page-state transition hook. The hook body
inside jemalloc's arena/extent code is not in the header; per the header's
comments and the spec, if `use_thread_local_stats` is true at the instant of
the transition the thread-local delta counters are updated, otherwise the
global counters are updated. The flag is read from the state at each call,
never cached. -/
def processTransition (s : State) (e : TransitionEvent) : State :=
  if s.tls.use_thread_local_stats then
    { s with tls := { s.tls with
        active_bytes_delta := s.tls.active_bytes_delta + activeEffect e,
        dirty_bytes_delta := s.tls.dirty_bytes_delta + dirtyEffect e } }
  else
    { s with globals := { s.globals with
        resident_bytes := s.globals.resident_bytes + residentEffect e,
        active_bytes := s.globals.active_bytes + activeEffect e } }

/-- A whole instrumented call viewed as the sequence of transition events it
triggers, processed in order by the hook. -/
def processTransitions (s : State) (es : List TransitionEvent) : State :=
  es.foldl processTransition s

/-- Modelled from the spec: the admission control check, consulted before a
transition that would grow resident memory. It passes unless the thread has
`do_not_increase_rss` set and the request is not satisfiable entirely from
already-active or dirty regions. -/
def admissionCheck (tls : ClickhouseTls) (satisfiableFromExisting : Bool) : Bool :=
  !tls.do_not_increase_rss || satisfiableFromExisting

/-- Modelled from the spec: the allocator consults the admission check before
committing to a transition that would grow resident memory; on rejection the
call fails (`none`) and no transition is applied, otherwise the transition
goes through the hook. -/
def guardedGrowth (s : State) (e : TransitionEvent) (satisfiableFromExisting : Bool) :
    Option State :=
  if admissionCheck s.tls satisfiableFromExisting then some (processTransition s e)
  else none

/-- Steps 1-3 of the intended-usage code (header lines 113-118): speculatively
fetch-add `size` into `je_clickhouse_resident_bytes` (the fetch-add returns the
pre-addition value `resident`), then set
`do_not_increase_rss = resident + size > memory_limit` and
`use_thread_local_stats = true`. The delta baselines `prev_active`/`prev_dirty`
are snapshots of the state passed in. -/
def reservationSetup (s : State) (size : Nat) (memory_limit : Int) : State :=
  let resident := s.globals.resident_bytes
  { globals := { s.globals with resident_bytes := resident + (size : Int) },
    tls := { s.tls with
      do_not_increase_rss := decide (resident + (size : Int) > memory_limit),
      use_thread_local_stats := true } }

/-- The full speculative reservation protocol of the intended-usage code
(header lines 112-128), with the instrumented call of step 4 given as the list
of transition events it triggers:
steps 1-3 are `reservationSetup`; step 4 runs the events through the hook;
step 5 resets both flags to false; step 6 adds
`(active_bytes_delta - prev_active) + (dirty_bytes_delta - prev_dirty) - size`
to `je_clickhouse_resident_bytes` and `active_bytes_delta - prev_active` to
`je_clickhouse_active_bytes`, where `prev_active`/`prev_dirty` are the
baselines snapshotted before the call. -/
def reservationProtocol (s : State) (size : Nat) (memory_limit : Int)
    (callEvents : List TransitionEvent) : State :=
  let prev_active := s.tls.active_bytes_delta
  let prev_dirty := s.tls.dirty_bytes_delta
  let s4 := processTransitions (reservationSetup s size memory_limit) callEvents
  let newResident : Int := s4.globals.resident_bytes
      + (s4.tls.active_bytes_delta - prev_active)
      + (s4.tls.dirty_bytes_delta - prev_dirty)
      - (size : Int)
  let newActive : Int := s4.globals.active_bytes
      + (s4.tls.active_bytes_delta - prev_active)
  { globals := { resident_bytes := newResident, active_bytes := newActive },
    tls := { s4.tls with use_thread_local_stats := false, do_not_increase_rss := false } }

/-- Full reconciliation of a thread's accumulated deltas into the global
counters (header lines 96-97: with `use_thread_local_stats == true` the user
updates the global counters from `je_clickhouse_tls`): add
`active_delta + dirty_delta` to resident and `active_delta` to active, where
the deltas are measured against the given baselines. -/
def reconcile (g : GlobalCounters) (tls : ClickhouseTls)
    (prev_active prev_dirty : Int) : GlobalCounters :=
  let newResident : Int := g.resident_bytes
      + (tls.active_bytes_delta - prev_active) + (tls.dirty_bytes_delta - prev_dirty)
  { resident_bytes := newResident,
    active_bytes := g.active_bytes + (tls.active_bytes_delta - prev_active) }

/-- Whether a transition kind enters the active state (retained→active or
dirty→active). -/
def entersActive (k : TransitionKind) : Bool :=
  match k with
  | .retainedToActive => true
  | .dirtyToActive => true
  | .activeToDirty => false
  | .dirtyToRetained => false

/-- Whether a transition kind exits the active state (active→dirty). -/
def exitsActive (k : TransitionKind) : Bool :=
  match k with
  | .activeToDirty => true
  | _ => false

/-- Whether a transition kind enters resident memory from retained
(retained→active). -/
def entersFromRetained (k : TransitionKind) : Bool :=
  match k with
  | .retainedToActive => true
  | _ => false

/-- Whether a transition kind exits resident memory to retained
(dirty→retained). -/
def exitsToRetained (k : TransitionKind) : Bool :=
  match k with
  | .dirtyToRetained => true
  | _ => false

/-- Sum of the sizes of the events in a sequence whose kind satisfies `p`. -/
def sumSizes (p : TransitionKind → Bool) (es : List TransitionEvent) : Int :=
  ((es.filter (fun e => p e.kind)).map (fun e => (e.size : Int))).sum

/-- Abstract page state: the total bytes of currently active pages and of
currently dirty regions (everything else is retained). Tracks the allocator's
external page-state machine just enough to state the counter invariant. -/
structure PageState where
  activeBytes : Nat
  dirtyBytes : Nat
deriving DecidableEq, Repr

/-- A transition event is applicable to an abstract page state when the bytes
it moves out of a state are actually there. -/
def eventValid (p : PageState) (e : TransitionEvent) : Bool :=
  match e.kind with
  | .retainedToActive => true
  | .dirtyToActive => decide (e.size ≤ p.dirtyBytes)
  | .activeToDirty => decide (e.size ≤ p.activeBytes)
  | .dirtyToRetained => decide (e.size ≤ p.dirtyBytes)

/-- Apply one transition event to the abstract page state. -/
def applyEvent (p : PageState) (e : TransitionEvent) : PageState :=
  match e.kind with
  | .retainedToActive => { p with activeBytes := p.activeBytes + e.size }
  | .dirtyToActive =>
      { activeBytes := p.activeBytes + e.size, dirtyBytes := p.dirtyBytes - e.size }
  | .activeToDirty =>
      { activeBytes := p.activeBytes - e.size, dirtyBytes := p.dirtyBytes + e.size }
  | .dirtyToRetained => { p with dirtyBytes := p.dirtyBytes - e.size }

/-- A sequence of transition events is valid from an abstract page state when
each event is applicable to the state reached by its predecessors. -/
def validSeq : PageState → List TransitionEvent → Bool
  | _, [] => true
  | p, e :: es => eventValid p e && validSeq (applyEvent p e) es

/-- Apply a sequence of transition events to the abstract page state. -/
def applyEvents (p : PageState) (es : List TransitionEvent) : PageState :=
  es.foldl applyEvent p

/-! ## Helper lemmas -/

theorem residentEffect_eq_active_add_dirty (e : TransitionEvent) :
    residentEffect e = activeEffect e + dirtyEffect e := by
  cases e with
  | mk k n => cases k <;> simp [residentEffect, activeEffect, dirtyEffect]

theorem processTransition_local (s : State) (h : s.tls.use_thread_local_stats = true)
    (e : TransitionEvent) :
    processTransition s e =
      ⟨s.globals, { s.tls with
        active_bytes_delta := s.tls.active_bytes_delta + activeEffect e,
        dirty_bytes_delta := s.tls.dirty_bytes_delta + dirtyEffect e }⟩ := by
  simp [processTransition, h]

theorem processTransition_global (s : State) (h : s.tls.use_thread_local_stats = false)
    (e : TransitionEvent) :
    processTransition s e =
      ⟨{ resident_bytes := s.globals.resident_bytes + residentEffect e,
         active_bytes := s.globals.active_bytes + activeEffect e }, s.tls⟩ := by
  simp [processTransition, h]

theorem processTransitions_local (es : List TransitionEvent) :
    ∀ s : State, s.tls.use_thread_local_stats = true →
      processTransitions s es =
        ⟨s.globals, { s.tls with
          active_bytes_delta := s.tls.active_bytes_delta + (es.map activeEffect).sum,
          dirty_bytes_delta := s.tls.dirty_bytes_delta + (es.map dirtyEffect).sum }⟩ := by
  induction es with
  | nil =>
    intro s h
    cases s with
    | mk g tls => simp [processTransitions]
  | cons e es ih =>
    intro s h
    have hstep : processTransitions s (e :: es)
        = processTransitions (processTransition s e) es := rfl
    rw [hstep, processTransition_local s h e, ih _ (by simp [h])]
    simp [State.mk.injEq, ClickhouseTls.mk.injEq, add_assoc]

theorem processTransitions_global (es : List TransitionEvent) :
    ∀ s : State, s.tls.use_thread_local_stats = false →
      processTransitions s es =
        ⟨{ resident_bytes := s.globals.resident_bytes + (es.map residentEffect).sum,
           active_bytes := s.globals.active_bytes + (es.map activeEffect).sum }, s.tls⟩ := by
  induction es with
  | nil =>
    intro s h
    cases s with
    | mk g tls => simp [processTransitions]
  | cons e es ih =>
    intro s h
    have hstep : processTransitions s (e :: es)
        = processTransitions (processTransition s e) es := rfl
    rw [hstep, processTransition_global s h e, ih _ (by simp [h])]
    simp [State.mk.injEq, GlobalCounters.mk.injEq, add_assoc]

theorem sumSizes_cons (p : TransitionKind → Bool) (e : TransitionEvent)
    (es : List TransitionEvent) :
    sumSizes p (e :: es)
      = (if p e.kind then (e.size : Int) else 0) + sumSizes p es := by
  by_cases h : p e.kind <;> simp [sumSizes, List.filter_cons, h]

theorem sum_residentEffect (es : List TransitionEvent) :
    (es.map residentEffect).sum
      = sumSizes entersFromRetained es - sumSizes exitsToRetained es := by
  induction es with
  | nil => simp [sumSizes]
  | cons e es ih =>
    cases e with
    | mk k n =>
      cases k <;>
        simp [sumSizes_cons, residentEffect, entersFromRetained, exitsToRetained, ih] <;>
        ring

theorem sum_activeEffect (es : List TransitionEvent) :
    (es.map activeEffect).sum
      = sumSizes entersActive es - sumSizes exitsActive es := by
  induction es with
  | nil => simp [sumSizes]
  | cons e es ih =>
    cases e with
    | mk k n =>
      cases k <;>
        simp [sumSizes_cons, activeEffect, entersActive, exitsActive, ih] <;>
        ring

theorem sum_resident_split (es : List TransitionEvent) :
    (es.map residentEffect).sum
      = (es.map activeEffect).sum + (es.map dirtyEffect).sum := by
  induction es with
  | nil => simp
  | cons e es ih =>
    simp [residentEffect_eq_active_add_dirty, ih]
    ring

theorem global_mode_invariant_aux (es : List TransitionEvent) :
    ∀ (p : PageState) (g : GlobalCounters) (ad dd : Int) (dn : Bool),
      validSeq p es = true →
      g.resident_bytes = (p.activeBytes : Int) + (p.dirtyBytes : Int) →
      g.active_bytes = (p.activeBytes : Int) →
      (processTransitions ⟨g, ⟨ad, dd, false, dn⟩⟩ es).globals.resident_bytes
          = ((applyEvents p es).activeBytes : Int) + ((applyEvents p es).dirtyBytes : Int)
        ∧ (processTransitions ⟨g, ⟨ad, dd, false, dn⟩⟩ es).globals.active_bytes
          = ((applyEvents p es).activeBytes : Int) := by
  induction es with
  | nil =>
    intro p g ad dd dn _ hr ha
    exact ⟨hr, ha⟩
  | cons e es ih =>
    intro p g ad dd dn hv hr ha
    have hv' : eventValid p e = true ∧ validSeq (applyEvent p e) es = true := by
      simpa [validSeq, Bool.and_eq_true] using hv
    have hstep : processTransitions ⟨g, ⟨ad, dd, false, dn⟩⟩ (e :: es)
        = processTransitions (processTransition ⟨g, ⟨ad, dd, false, dn⟩⟩ e) es := rfl
    have happ : applyEvents p (e :: es) = applyEvents (applyEvent p e) es := rfl
    rw [hstep, happ, processTransition_global _ rfl e]
    apply ih (applyEvent p e) _ ad dd dn hv'.2
    · cases e with
      | mk k n =>
        have := hv'.1
        cases k <;>
          simp [applyEvent, residentEffect, eventValid] at * <;>
          omega
    · cases e with
      | mk k n =>
        have := hv'.1
        cases k <;>
          simp [applyEvent, activeEffect, eventValid] at * <;>
          omega

/-! ## Claim theorems -/

/-- C1: in one execution of the speculative reservation protocol, step 6 adds
`(active_delta + dirty_delta - requested_size)` to global `resident_bytes` and
`active_delta` to global `active_bytes`, where the deltas are the thread's
delta counters after the call minus the baseline snapshot taken before it;
combined with the step-1 speculative addition of the requested size, the
protocol's net change to `resident_bytes` is `active_delta + dirty_delta` and
its net change to `active_bytes` is `active_delta`, the requested size
cancelling out exactly. -/
theorem c1_reservation_net_effect (g : GlobalCounters) (tls : ClickhouseTls)
    (size : Nat) (memory_limit : Int) (es : List TransitionEvent) :
    let sFinal := reservationProtocol ⟨g, tls⟩ size memory_limit es
    let s4 := processTransitions (reservationSetup ⟨g, tls⟩ size memory_limit) es
    let activeDelta := sFinal.tls.active_bytes_delta - tls.active_bytes_delta
    let dirtyDelta := sFinal.tls.dirty_bytes_delta - tls.dirty_bytes_delta
    sFinal.globals.resident_bytes
        = s4.globals.resident_bytes + (activeDelta + dirtyDelta - (size : Int))
      ∧ sFinal.globals.active_bytes = s4.globals.active_bytes + activeDelta
      ∧ sFinal.globals.resident_bytes = g.resident_bytes + (activeDelta + dirtyDelta)
      ∧ sFinal.globals.active_bytes = g.active_bytes + activeDelta := by
  have h4 := processTransitions_local es (reservationSetup ⟨g, tls⟩ size memory_limit)
    (by simp [reservationSetup])
  simp only [reservationSetup] at h4
  simp only [reservationProtocol, reservationSetup, h4]
  refine ⟨by ring_nf, by ring_nf, by ring_nf, by ring_nf⟩

/-- C2: in global mode a page-state transition of size `n` has exactly the
effects of the four-row table: retained→active adds `n` to both counters,
dirty→active adds `n` to active only, active→dirty subtracts `n` from active
only, dirty→retained subtracts `n` from resident only; and these four
transition kinds are exhaustive. -/
theorem c2_transition_table (g : GlobalCounters) (ad dd : Int) (dn : Bool) (n : Nat) :
    (processTransition ⟨g, ⟨ad, dd, false, dn⟩⟩ ⟨.retainedToActive, n⟩).globals
        = ⟨g.resident_bytes + (n : Int), g.active_bytes + (n : Int)⟩
      ∧ (processTransition ⟨g, ⟨ad, dd, false, dn⟩⟩ ⟨.dirtyToActive, n⟩).globals
        = ⟨g.resident_bytes, g.active_bytes + (n : Int)⟩
      ∧ (processTransition ⟨g, ⟨ad, dd, false, dn⟩⟩ ⟨.activeToDirty, n⟩).globals
        = ⟨g.resident_bytes, g.active_bytes - (n : Int)⟩
      ∧ (processTransition ⟨g, ⟨ad, dd, false, dn⟩⟩ ⟨.dirtyToRetained, n⟩).globals
        = ⟨g.resident_bytes - (n : Int), g.active_bytes⟩
      ∧ ∀ k : TransitionKind,
          k = .retainedToActive ∨ k = .dirtyToActive ∨ k = .activeToDirty
            ∨ k = .dirtyToRetained := by
  refine ⟨?_, ?_, ?_, ?_, ?_⟩
  · simp [processTransition, residentEffect, activeEffect, GlobalCounters.mk.injEq]
  · simp [processTransition, residentEffect, activeEffect, GlobalCounters.mk.injEq]
  · simp [processTransition, residentEffect, activeEffect, GlobalCounters.mk.injEq,
      sub_eq_add_neg]
  · simp [processTransition, residentEffect, activeEffect, GlobalCounters.mk.injEq,
      sub_eq_add_neg]
  · intro k
    cases k <;> simp

/-- C3: for any transition sequence applied entirely in global mode, the final
`resident_bytes` equals the initial value plus the sum of sizes of
retained→active entries minus the sum of sizes of dirty→retained exits, the
final `active_bytes` equals the initial value plus the sum of sizes of entries
to active minus the sum of sizes of exits from active, and the final counters
are independent of the interleaving order of the events. -/
theorem c3_global_mode_sums (g : GlobalCounters) (ad dd : Int) (dn : Bool)
    (es : List TransitionEvent) :
    (processTransitions ⟨g, ⟨ad, dd, false, dn⟩⟩ es).globals.resident_bytes
        = g.resident_bytes + sumSizes entersFromRetained es - sumSizes exitsToRetained es
      ∧ (processTransitions ⟨g, ⟨ad, dd, false, dn⟩⟩ es).globals.active_bytes
        = g.active_bytes + sumSizes entersActive es - sumSizes exitsActive es
      ∧ ∀ es' : List TransitionEvent, es.Perm es' →
          (processTransitions ⟨g, ⟨ad, dd, false, dn⟩⟩ es').globals
            = (processTransitions ⟨g, ⟨ad, dd, false, dn⟩⟩ es).globals := by
  refine ⟨?_, ?_, ?_⟩
  · rw [processTransitions_global es _ rfl]
    dsimp only
    rw [sum_residentEffect]
    ring
  · rw [processTransitions_global es _ rfl]
    dsimp only
    rw [sum_activeEffect]
    ring
  · intro es' hp
    rw [processTransitions_global es _ rfl, processTransitions_global es' _ rfl]
    have h1 := (hp.map residentEffect).sum_eq
    have h2 := (hp.map activeEffect).sum_eq
    simp [h1, h2]

/-- Witness for C3 at a concrete input: swapping a dirty→retained exit and a
retained→active entry leaves the final global counters unchanged. -/
theorem c3_global_mode_sums_witness :
    (processTransitions ⟨⟨0, 0⟩, ⟨0, 0, false, false⟩⟩
        [⟨.dirtyToRetained, 3⟩, ⟨.retainedToActive, 5⟩]).globals
      = (processTransitions ⟨⟨0, 0⟩, ⟨0, 0, false, false⟩⟩
        [⟨.retainedToActive, 5⟩, ⟨.dirtyToRetained, 3⟩]).globals :=
  (c3_global_mode_sums ⟨0, 0⟩ 0 0 false
      [⟨.retainedToActive, 5⟩, ⟨.dirtyToRetained, 3⟩]).2.2
    [⟨.dirtyToRetained, 3⟩, ⟨.retainedToActive, 5⟩] (by decide)

/-- C4: if the instrumented call triggers no page-state transition (as when it
fails, rejected by the admission check or otherwise), steps 5 and 6 of the
protocol still run: the observed deltas are zero, the step-6 formula cancels
the step-1 reservation exactly, the global counters are net unchanged, and
both flags end up false. -/
theorem c4_failure_atomicity (g : GlobalCounters) (tls : ClickhouseTls)
    (size : Nat) (memory_limit : Int) :
    (reservationProtocol ⟨g, tls⟩ size memory_limit []).globals = g
      ∧ (reservationProtocol ⟨g, tls⟩ size memory_limit []).tls
        = { tls with use_thread_local_stats := false, do_not_increase_rss := false } := by
  cases g with
  | mk gr ga =>
    cases tls with
    | mk ad dd u d =>
      refine ⟨?_, ?_⟩
      · simp [reservationProtocol, reservationSetup, processTransitions,
          GlobalCounters.mk.injEq]
      · simp [reservationProtocol, reservationSetup, processTransitions]

/-- C5: a transition sequence run entirely in global mode produces global
counters identical to the same sequence run entirely in thread-local mode
followed by one full reconciliation of the accumulated deltas against their
baselines. -/
theorem c5_mode_equivalence (g : GlobalCounters) (ad dd : Int) (dn : Bool)
    (es : List TransitionEvent) :
    (processTransitions ⟨g, ⟨ad, dd, false, dn⟩⟩ es).globals
      = reconcile (processTransitions ⟨g, ⟨ad, dd, true, dn⟩⟩ es).globals
          (processTransitions ⟨g, ⟨ad, dd, true, dn⟩⟩ es).tls ad dd := by
  rw [processTransitions_global es _ rfl, processTransitions_local es _ rfl]
  simp [reconcile, GlobalCounters.mk.injEq, sum_resident_split]
  ring

/-- C6: step 3 of the reservation protocol sets `do_not_increase_rss` to true
exactly when the post-step-1 reserved `resident_bytes` exceeds the memory
limit: the code computes `resident + size > memory_limit` with `resident` the
pre-addition value returned by the fetch-add, and the post-addition counter
equals `resident + size`. -/
theorem c6_do_not_increase_rss_setting (g : GlobalCounters) (tls : ClickhouseTls)
    (size : Nat) (memory_limit : Int) :
    (reservationSetup ⟨g, tls⟩ size memory_limit).tls.do_not_increase_rss
        = decide ((reservationSetup ⟨g, tls⟩ size memory_limit).globals.resident_bytes
            > memory_limit)
      ∧ (reservationSetup ⟨g, tls⟩ size memory_limit).globals.resident_bytes
        = g.resident_bytes + (size : Int)
      ∧ (reservationSetup ⟨g, tls⟩ size memory_limit).tls.use_thread_local_stats
        = true :=
  ⟨rfl, rfl, rfl⟩

/-- C7: the admission check always passes when the thread's
`do_not_increase_rss` is false — a non-opted-in guarded allocation step is
exactly the unguarded transition, so default behavior is unaffected — and
when the flag is true a request not satisfiable from already-active or dirty
regions is rejected (the guarded step fails instead of growing memory);
in general the check fails exactly when the flag is set and the request is
unsatisfiable from existing regions. -/
theorem c7_admission_check (g : GlobalCounters) (tls : ClickhouseTls)
    (e : TransitionEvent) (sat : Bool) :
    admissionCheck { tls with do_not_increase_rss := false } sat = true
      ∧ guardedGrowth ⟨g, { tls with do_not_increase_rss := false }⟩ e sat
        = some (processTransition ⟨g, { tls with do_not_increase_rss := false }⟩ e)
      ∧ guardedGrowth ⟨g, { tls with do_not_increase_rss := true }⟩ e false = none
      ∧ (admissionCheck tls sat = false
          ↔ tls.do_not_increase_rss = true ∧ sat = false) := by
  refine ⟨rfl, ?_, rfl, ?_⟩
  · simp [guardedGrowth, admissionCheck]
  · cases h : tls.do_not_increase_rss <;> cases sat <;> simp [admissionCheck, h]

/-- C8: routing is decided by the value of `use_thread_local_stats` at the
instant each individual transition is processed, not at call entry: a first
transition processed with the flag false goes to the global counters and
leaves the deltas alone, and after the flag changes to true a second
transition of the same call goes to the thread-local deltas and leaves the
globals alone. -/
theorem c8_live_flag_routing (g : GlobalCounters) (tls : ClickhouseTls)
    (e₁ e₂ : TransitionEvent) :
    let s1 := processTransition ⟨g, { tls with use_thread_local_stats := false }⟩ e₁
    let s2 := processTransition
      ⟨s1.globals, { s1.tls with use_thread_local_stats := true }⟩ e₂
    s1.globals.resident_bytes = g.resident_bytes + residentEffect e₁
      ∧ s1.globals.active_bytes = g.active_bytes + activeEffect e₁
      ∧ s1.tls.active_bytes_delta = tls.active_bytes_delta
      ∧ s1.tls.dirty_bytes_delta = tls.dirty_bytes_delta
      ∧ s2.globals = s1.globals
      ∧ s2.tls.active_bytes_delta = tls.active_bytes_delta + activeEffect e₂
      ∧ s2.tls.dirty_bytes_delta = tls.dirty_bytes_delta + dirtyEffect e₂ := by
  simp [processTransition]

/-- C9: starting from zeroed counters and empty abstract page state, every
valid sequence of the four transition kinds applied in global mode keeps
`resident_bytes` equal to the total bytes of currently active or dirty pages
and `active_bytes` equal to the total bytes of currently active pages; in
particular `active_bytes ≤ resident_bytes` throughout. -/
theorem c9_counter_invariant (es : List TransitionEvent) (ad dd : Int) (dn : Bool)
    (h : validSeq ⟨0, 0⟩ es = true) :
    (processTransitions ⟨⟨0, 0⟩, ⟨ad, dd, false, dn⟩⟩ es).globals.resident_bytes
        = ((applyEvents ⟨0, 0⟩ es).activeBytes : Int)
          + ((applyEvents ⟨0, 0⟩ es).dirtyBytes : Int)
      ∧ (processTransitions ⟨⟨0, 0⟩, ⟨ad, dd, false, dn⟩⟩ es).globals.active_bytes
        = ((applyEvents ⟨0, 0⟩ es).activeBytes : Int)
      ∧ (processTransitions ⟨⟨0, 0⟩, ⟨ad, dd, false, dn⟩⟩ es).globals.active_bytes
        ≤ (processTransitions ⟨⟨0, 0⟩, ⟨ad, dd, false, dn⟩⟩ es).globals.resident_bytes := by
  have h2 := global_mode_invariant_aux es ⟨0, 0⟩ ⟨0, 0⟩ ad dd dn h (by simp) (by simp)
  refine ⟨h2.1, h2.2, ?_⟩
  rw [h2.1, h2.2]
  omega

/-- Witness for C9 at a concrete input: a retained→active entry of 5 bytes
followed by an active→dirty move of 3 bytes is a valid sequence, and the
resulting global `active_bytes` does not exceed `resident_bytes`. -/
theorem c9_counter_invariant_witness :
    validSeq ⟨0, 0⟩ ([⟨.retainedToActive, 5⟩, ⟨.activeToDirty, 3⟩]
        : List TransitionEvent) = true
      ∧ (processTransitions ⟨⟨0, 0⟩, ⟨0, 0, false, false⟩⟩
            [⟨.retainedToActive, 5⟩, ⟨.activeToDirty, 3⟩]).globals.active_bytes
        ≤ (processTransitions ⟨⟨0, 0⟩, ⟨0, 0, false, false⟩⟩
            [⟨.retainedToActive, 5⟩, ⟨.activeToDirty, 3⟩]).globals.resident_bytes :=
  ⟨by decide,
    (c9_counter_invariant [⟨.retainedToActive, 5⟩, ⟨.activeToDirty, 3⟩] 0 0 false
      (by decide)).2.2⟩

/-- C10: processing one transition event touches exactly one of the two
counter targets and neither mode flag: with `use_thread_local_stats` true it
changes only the thread's delta counters and leaves the global counters
untouched, with the flag false it changes only the global counters and leaves
the thread-local record untouched, and in both cases `use_thread_local_stats`
and `do_not_increase_rss` are unchanged. -/
theorem c10_frame_effect (g : GlobalCounters) (tls : ClickhouseTls)
    (e : TransitionEvent) :
    let sT := processTransition ⟨g, { tls with use_thread_local_stats := true }⟩ e
    let sF := processTransition ⟨g, { tls with use_thread_local_stats := false }⟩ e
    sT.globals = g
      ∧ sT.tls.active_bytes_delta = tls.active_bytes_delta + activeEffect e
      ∧ sT.tls.dirty_bytes_delta = tls.dirty_bytes_delta + dirtyEffect e
      ∧ sT.tls.use_thread_local_stats = true
      ∧ sT.tls.do_not_increase_rss = tls.do_not_increase_rss
      ∧ sF.tls = { tls with use_thread_local_stats := false }
      ∧ sF.globals.resident_bytes = g.resident_bytes + residentEffect e
      ∧ sF.globals.active_bytes = g.active_bytes + activeEffect e
      ∧ sF.tls.use_thread_local_stats = false
      ∧ sF.tls.do_not_increase_rss = tls.do_not_increase_rss := by
  simp [processTransition]

end ClickhouseJemalloc
